import Mathlib

/-!
Verification of the classroom-chatbot dispatcher in `app.py` (active code,
not the commented-out earlier revision).  The Python dispatcher `chat`,
its SQLite helpers and its quiz picker are shallowly embedded as pure
Lean functions over an explicit session record and an explicit database
record; `random.choice(xs)` is embedded as indexing `xs` at `r % xs.length`
for an arbitrary `r : Nat` supplied per call, and `datetime.now()` dates
are supplied as an explicit `today` argument.
-/

/-! ## Python string primitives (embedded over `List Char`) -/

/-- Embedding of Python `str.lower()` (ASCII case folding, which is all the
program's data exercises). -/
def lowerStr (s : String) : String := ⟨s.data.map Char.toLower⟩

/-- Leading/trailing-whitespace removal on character lists. -/
def stripChars (l : List Char) : List Char :=
  ((l.dropWhile Char.isWhitespace).reverse.dropWhile Char.isWhitespace).reverse

/-- Embedding of Python `str.strip()`. -/
def stripStr (s : String) : String := ⟨stripChars s.data⟩

/-- Worker for `splitComma`: splits at every `,`, keeping empty pieces,
exactly like Python `str.split(",")`. -/
def splitCommaAux : List Char → List Char → List String
  | [], acc => [⟨acc.reverse⟩]
  | c :: rest, acc =>
    if c = ',' then ⟨acc.reverse⟩ :: splitCommaAux rest [] else splitCommaAux rest (c :: acc)

/-- Embedding of Python `str.split(",")`. -/
def splitComma (s : String) : List String := splitCommaAux s.data []

/-- Embedding of the Python slice `s[n:]` (by code point). -/
def dropStr (s : String) (n : Nat) : String := ⟨s.data.drop n⟩

/-- Character-list prefix test. -/
def prefixChars : List Char → List Char → Bool
  | [], _ => true
  | _ :: _, [] => false
  | a :: as, b :: bs => a = b && prefixChars as bs

/-- Embedding of Python `s.startswith(pre)`. -/
def startsWithStr (s pre : String) : Bool := prefixChars pre.data s.data

/-- Embedding of Python `sep.join(xs)`. -/
def joinSep (sep : String) : List String → String
  | [] => ""
  | [x] => x
  | x :: y :: xs => x ++ sep ++ joinSep sep (y :: xs)

/-- Embedding of the Python substring test `needle in hay`. -/
def pyIn (needle hay : String) : Prop := needle.data <:+: hay.data

instance (n h : String) : Decidable (pyIn n h) :=
  inferInstanceAs (Decidable (n.data <:+: h.data))

/-! ## Data model -/

/-- A quiz bank entry, `("question", "answer")` in `state["quiz_questions"]`. -/
structure QA where
  q : String
  a : String
deriving DecidableEq

/-- The mutable in-memory record `state` in `app.py` (minus the immutable
`quiz_questions` list, which is the constant `quiz_questions` below). -/
structure Session where
  is_taking_attendance : Bool
  present_students : List String
  awaiting_feedback : Bool
  current_question : Option QA
  asked_questions : List String
  waiting_for_quiz_yes_no : Bool
  score : Nat
  total_answered : Nat
deriving DecidableEq

/-- The initial value of `state` at process start. -/
def initSession : Session :=
  { is_taking_attendance := false
    present_students := []
    awaiting_feedback := false
    current_question := none
    asked_questions := []
    waiting_for_quiz_yes_no := false
    score := 0
    total_answered := 0 }

/-- The fixed 9-question bank `state["quiz_questions"]`. -/
def quiz_questions : List QA :=
  [⟨"What is the powerhouse of the cell?", "Mitochondria"⟩,
   ⟨"What is 2 + 2 * 2?", "6"⟩,
   ⟨"Who wrote 'To Kill a Mockingbird'?", "Harper Lee"⟩,
   ⟨"What is the capital of France?", "Paris"⟩,
   ⟨"How many days are in a year?", "365"⟩,
   ⟨"What is the largest planet in our solar system?", "Jupiter"⟩,
   ⟨"Who wrote Romeo and Juliet?", "William Shakespeare"⟩,
   ⟨"What is H2O?", "Water"⟩,
   ⟨"What color is the sky?", "Blue"⟩]

/-- The SQLite store `classroom.db`: `students(name UNIQUE)` in insertion
order, `attendance(date, student, status)` rows in insertion order, and
`feedback` texts in insertion order (timestamps are not modelled; no claim
mentions them). -/
structure DB where
  students : List String
  attendance : List (String × String × String)
  feedback : List String
deriving DecidableEq

/-- A freshly initialised database. -/
def emptyDB : DB := { students := [], attendance := [], feedback := [] }

/-- `add_student`: `INSERT INTO students(name)` with the UNIQUE constraint
violation silently swallowed (`except sqlite3.IntegrityError: pass`). -/
def add_student (db : DB) (name : String) : DB :=
  if name ∈ db.students then db else { db with students := db.students ++ [name] }

/-- `get_all_students`: `SELECT name FROM students`. -/
def get_all_students (db : DB) : List String := db.students

/-- `mark_attendance`: looks the student up by name and inserts one
attendance row when found, otherwise does nothing. -/
def mark_attendance (db : DB) (date student_name status : String) : DB :=
  if student_name ∈ db.students then
    { db with attendance := db.attendance ++ [(date, student_name, status)] }
  else db

/-- `get_attendance`: the `(name, status)` pairs of the rows whose date
matches exactly. -/
def get_attendance (db : DB) (date : String) : List (String × String) :=
  (db.attendance.filter (fun row => decide (row.1 = date))).map (fun row => (row.2.1, row.2.2))

/-- `add_feedback`: appends the text. -/
def add_feedback (db : DB) (text : String) : DB :=
  { db with feedback := db.feedback ++ [text] }

/-! ## Quiz picker and attendance loop -/

/-- The list comprehension `[qa for qa in state["quiz_questions"] if qa[0]
not in state["asked_questions"]]`. -/
def unusedQuestions (asked : List String) : List QA :=
  quiz_questions.filter (fun qa => decide (qa.q ∉ asked))

/-- `pick_unused_question`: `random.choice(unused) if unused else None`,
with the random draw embedded as indexing at `r % length`. -/
def pick_unused_question (s : Session) (r : Nat) : Option QA :=
  let unused := unusedQuestions s.asked_questions
  unused[r % unused.length]?

/-- The `for s in all_students:` loop of the attendance-capture branch:
threads the accumulated `present_students` list and the database. -/
def attendanceLoop (today : String) (lower_present : List String) :
    List String → List String → DB → List String × DB
  | [], present, db => (present, db)
  | stu :: rest, present, db =>
    if lowerStr stu ∈ lower_present then
      attendanceLoop today lower_present rest (present ++ [stu])
        (mark_attendance db today stu "present")
    else
      attendanceLoop today lower_present rest present
        (mark_attendance db today stu "absent")

/-! ## The dispatcher -/

/-- Result of one `POST /chat` call: the new session, the new database and
the response text. -/
structure ChatResult where
  session : Session
  db : DB
  resp : String
deriving DecidableEq

/-- The body of the dispatcher `chat` in `app.py`, parameterised by the two
locals it computes first: `user_message` (the stripped message) and `lo`
(its lowercasing).  `today` is `datetime.now().strftime("%Y-%m-%d")` and
`r` embeds the `random.choice` draw. -/
def handleCore (s : Session) (db : DB) (user_message lo today : String) (r : Nat) : ChatResult :=
  match s.current_question with
  | some qobj =>
    let correct := stripStr (lowerStr qobj.a)
    let s1 : Session := { s with total_answered := s.total_answered + 1 }
    let sr : Session × String :=
      if pyIn correct lo then
        ({ s1 with score := s1.score + 1 }, "‚úÖ Correct! Well done.")
      else
        (s1, "‚ùå Incorrect. The correct answer is: <strong>" ++ correct ++ "</strong>.")
    { session := { sr.1 with
        asked_questions := sr.1.asked_questions ++ [qobj.q]
        current_question := none
        waiting_for_quiz_yes_no := true }
      db := db
      resp := sr.2 ++ "<br><br>Do you want another question? (yes/no)" }
  | none =>
    if s.waiting_for_quiz_yes_no then
      if lo ∈ ["yes", "y"] then
        match pick_unused_question s r with
        | none =>
          { session := { s with waiting_for_quiz_yes_no := false }
            db := db
            resp := "üéâ No more questions left!<br>Final score: <strong>" ++
              toString s.score ++ "/" ++ toString s.total_answered ++ "</strong>" }
        | some qa =>
          { session := { s with current_question := some qa, waiting_for_quiz_yes_no := false }
            db := db
            resp := "Here is your next question:<br><br><strong>" ++ qa.q ++ "</strong>" }
      else if lo ∈ ["no", "n"] then
        { session := { s with waiting_for_quiz_yes_no := false }
          db := db
          resp := "üëç Okay, quiz ended.<br>Your final score: <strong>" ++
            toString s.score ++ "/" ++ toString s.total_answered ++ "</strong>" }
      else
        { session := s, db := db
          resp := "Please reply with <strong>yes</strong> or <strong>no</strong>." }
    else if s.is_taking_attendance then
      let present_names := ((splitComma user_message).map stripStr).filter (fun n => decide (n ≠ ""))
      let all_students := get_all_students db
      let lower_present := present_names.map lowerStr
      let pdb := attendanceLoop today lower_present all_students [] db
      let absent := all_students.filter (fun stu => decide (stu ∉ pdb.1))
      let resp0 := "Attendance complete. " ++ toString pdb.1.length ++ " present, " ++
        toString absent.length ++ " absent."
      { session := { s with is_taking_attendance := false, present_students := pdb.1 }
        db := pdb.2
        resp :=
          if absent ≠ [] then
            resp0 ++ "<br><br><strong>Absent:</strong> " ++ joinSep ", " absent
          else
            resp0 ++ "<br><br>Perfect attendance today!" }
    else if s.awaiting_feedback then
      { session := { s with awaiting_feedback := false }
        db := add_feedback db user_message
        resp := "‚úÖ Thank you for your feedback! It has been saved." }
    else if lo ∈ ["mark my attendance", "mark attendance", "take attendance"] then
      if get_all_students db = [] then
        { session := s, db := db
          resp := "No students found. Add students first using: <em>add students Alice, Bob</em>." }
      else
        { session := { s with is_taking_attendance := true }, db := db
          resp := "Okay, send a comma-separated list of <strong>present</strong> students for today." }
    else if lo ∈ ["start quiz", "quiz", "ask question", "start a quiz"] then
      let s1 : Session :=
        if s.asked_questions = [] ∧ s.total_answered = 0 then
          { s with score := 0, total_answered := 0 }
        else s
      match pick_unused_question s1 r with
      | none =>
        { session := s1, db := db
          resp := "All questions already used. Type <em>reset quiz</em> to start over." }
      | some qa =>
        { session := { s1 with current_question := some qa }, db := db
          resp := "Here is a quiz question:<br><br><strong>" ++ qa.q ++ "</strong>" }
    else if lo ∈ ["reset quiz", "restart quiz"] then
      { session := { s with
          current_question := none
          asked_questions := []
          waiting_for_quiz_yes_no := false
          score := 0
          total_answered := 0 }
        db := db
        resp := "üîÅ Quiz has been reset. Type <em>start quiz</em> to begin again." }
    else if lo ∈ ["show attendance stats", "attendance stats", "stats"] then
      let rows := get_attendance db today
      let present := (rows.filter (fun row => decide (row.2 = "present"))).length
      let absent := (rows.filter (fun row => decide (row.2 = "absent"))).length
      let total := present + absent
      if total = 0 then
        { session := s, db := db, resp := "No attendance recorded for today yet." }
      else
        { session := s, db := db
          resp := "üìä <strong>Today's stats</strong><br>Total: " ++
            toString total ++ "<br>Present: " ++ toString present ++ "<br>Absent: " ++ toString absent }
    else if lo ∈ ["give feedback", "feedback"] then
      { session := { s with awaiting_feedback := true }, db := db
        resp := "Sure, please type your feedback message." }
    else if startsWithStr lo "add students" then
      let names_part := stripStr (dropStr user_message 12)
      let names := ((splitComma names_part).map stripStr).filter (fun n => decide (n ≠ ""))
      if names = [] then
        { session := s, db := db, resp := "Provide names: <em>add students Alice, Bob</em>." }
      else
        { session := s, db := names.foldl add_student db
          resp := "Students added: " ++ joinSep ", " names }
    else if lo ∈ ["random student", "pick a student", "choose a student"] then
      if s.present_students = [] then
        { session := s, db := db, resp := "Please take attendance first so I know who is here." }
      else
        { session := s, db := db
          resp := "Okay, let's hear from‚Ä¶ <strong>" ++
            (s.present_students[r % s.present_students.length]?).getD "" ++ "</strong>!" }
    else if lo ∈ ["help", "commands"] then
      { session := s, db := db
        resp := "Here are the commands I understand:\n        <ul>\n            <li><strong>add students Alice, Bob</strong> ‚Äî add student names</li>\n            <li><strong>mark my attendance</strong> ‚Äî start attendance (send present names)</li>\n            <li><strong>show attendance stats</strong> ‚Äî today's counts</li>\n            <li><strong>start quiz</strong> ‚Äî begin quiz</li>\n            <li><strong>reset quiz</strong> ‚Äî clear quiz progress</li>\n            <li><strong>random student</strong> ‚Äî pick a present student</li>\n            <li><strong>give feedback</strong> ‚Äî record feedback</li>\n        </ul>" }
    else
      { session := s, db := add_feedback db user_message
        resp := "‚úÖ Thank you for your feedback! It has been saved." }

/-- The dispatcher `chat` on a raw message: strips it, lowercases it and
runs the body. -/
def handle (s : Session) (db : DB) (msg today : String) (r : Nat) : ChatResult :=
  handleCore s db (stripStr msg) (lowerStr (stripStr msg)) today r

/-- The exact command phrases of the dispatcher's literal command table, in
source order. -/
def command_phrases : List String :=
  ["mark my attendance", "mark attendance", "take attendance",
   "start quiz", "quiz", "ask question", "start a quiz",
   "reset quiz", "restart quiz",
   "show attendance stats", "attendance stats", "stats",
   "give feedback", "feedback",
   "random student", "pick a student", "choose a student",
   "help", "commands"]

/-- Whether a lowercased message hits any branch of the command table
(an exact phrase, or the `add students` prefix). -/
def matchesCommand (lo : String) : Bool :=
  decide (lo ∈ command_phrases) || startsWithStr lo "add students"

/-! ## Reachability -/

/-- One dispatcher step on a session/database pair; the input triple is
`(message, today, random draw)`. -/
def stepPair (p : Session × DB) (inp : String × String × Nat) : Session × DB :=
  let res := handle p.1 p.2 inp.1 inp.2.1 inp.2.2
  (res.session, res.db)

/-- Folding a whole input sequence through the dispatcher. -/
def runMsgs (p : Session × DB) (inps : List (String × String × Nat)) : Session × DB :=
  inps.foldl stepPair p

/-- Session states reachable from process start (`initSession`, any initial
database contents) by a sequence of `handle` invocations. -/
def ReachableSession (s : Session) : Prop :=
  ∃ (db0 : DB) (inps : List (String × String × Nat)), (runMsgs (initSession, db0) inps).1 = s

/-! ## Generic helper lemmas -/

/-- The embedded substring test finds a middle factor of a concatenation. -/
theorem pyIn_factor (a b c : String) : pyIn b (a ++ b ++ c) := by
  refine ⟨a.data, c.data, ?_⟩
  simp

/-- Factor form used for the score messages `pre ++ score ++ "/" ++ total ++ suf`. -/
theorem pyIn_score (pre ts mid tt suf : String) :
    pyIn (ts ++ mid ++ tt) (pre ++ ts ++ mid ++ tt ++ suf) := by
  refine ⟨pre.data, suf.data, ?_⟩
  simp

/-- Membership in the unused-question list. -/
theorem mem_unusedQuestions {qa : QA} {asked : List String} :
    qa ∈ unusedQuestions asked ↔ qa ∈ quiz_questions ∧ qa.q ∉ asked := by
  simp [unusedQuestions]

/-- The picker returns `none` exactly when no unused question remains. -/
theorem pick_unused_eq_none {s : Session} {r : Nat} :
    pick_unused_question s r = none ↔ unusedQuestions s.asked_questions = [] := by
  unfold pick_unused_question
  constructor
  · intro h
    by_contra hne
    have hlen : 0 < (unusedQuestions s.asked_questions).length := List.length_pos.mpr hne
    rw [List.getElem?_eq_getElem (Nat.mod_lt _ hlen)] at h
    cases h
  · intro h
    simp [h]

/-- A picked question is an unused bank question. -/
theorem pick_unused_eq_some {s : Session} {r : Nat} {qa : QA}
    (h : pick_unused_question s r = some qa) :
    qa ∈ quiz_questions ∧ qa.q ∉ s.asked_questions := by
  unfold pick_unused_question at h
  rw [List.getElem?_eq_some] at h
  obtain ⟨hlt, heq⟩ := h
  exact mem_unusedQuestions.mp (heq ▸ List.getElem_mem hlt)

/-- Every unused question is returned by the picker for some draw. -/
theorem pick_unused_surjective {s : Session} {qa : QA}
    (h : qa ∈ unusedQuestions s.asked_questions) :
    ∃ k, pick_unused_question s k = some qa := by
  obtain ⟨i, hi, heq⟩ := List.mem_iff_getElem.mp h
  refine ⟨i, ?_⟩
  show (unusedQuestions s.asked_questions)[i % (unusedQuestions s.asked_questions).length]? = some qa
  rw [Nat.mod_eq_of_lt hi, List.getElem?_eq_getElem hi, heq]

/-- The picker only reads the asked-questions list. -/
theorem pick_unused_congr {s s' : Session} (h : s'.asked_questions = s.asked_questions)
    (r : Nat) : pick_unused_question s' r = pick_unused_question s r := by
  unfold pick_unused_question
  rw [h]

theorem quiz_questions_q_nodup : (quiz_questions.map QA.q).Nodup := by decide

/-- A duplicate-free list of bank question texts has at most 9 entries. -/
theorem asked_le_nine {asked : List String} (hnd : asked.Nodup)
    (hsub : ∀ x ∈ asked, x ∈ quiz_questions.map QA.q) : asked.length ≤ 9 := by
  have := (hnd.subperm hsub).length_le
  simpa using this

/-! ## Branch equations for the dispatcher -/

/-- A string starting with a prefix that the members of `l` all lack is not
in `l`. -/
theorem not_mem_of_startsWith {lo pre : String} {l : List String}
    (hsw : startsWithStr lo pre = true)
    (hall : ∀ p ∈ l, startsWithStr p pre = false) : lo ∉ l := by
  intro hmem
  rw [hall lo hmem] at hsw
  cases hsw

/-- Branch 1: an active question consumes the message as an answer. -/
theorem eq_answer (s : Session) (db : DB) (um lo t : String) (r : Nat) (qobj : QA)
    (hq : s.current_question = some qobj) :
    handleCore s db um lo t r =
      { session := { s with
          current_question := none
          asked_questions := s.asked_questions ++ [qobj.q]
          waiting_for_quiz_yes_no := true
          score := if pyIn (stripStr (lowerStr qobj.a)) lo then s.score + 1 else s.score
          total_answered := s.total_answered + 1 }
        db := db
        resp := (if pyIn (stripStr (lowerStr qobj.a)) lo then "‚úÖ Correct! Well done."
          else "‚ùå Incorrect. The correct answer is: <strong>" ++
            stripStr (lowerStr qobj.a) ++ "</strong>.") ++
          "<br><br>Do you want another question? (yes/no)" } := by
  simp only [handleCore, hq]
  by_cases hin : pyIn (stripStr (lowerStr qobj.a)) lo
  · simp [hin]
  · simp [hin]

/-- Branch 2, `yes`: pick the next unused question. -/
theorem eq_continue_yes (s : Session) (db : DB) (um lo t : String) (r : Nat)
    (hq : s.current_question = none) (hw : s.waiting_for_quiz_yes_no = true)
    (hy : lo ∈ (["yes", "y"] : List String)) :
    handleCore s db um lo t r =
      (match pick_unused_question s r with
       | none =>
         { session := { s with waiting_for_quiz_yes_no := false }, db := db
           resp := "üéâ No more questions left!<br>Final score: <strong>" ++
             toString s.score ++ "/" ++ toString s.total_answered ++ "</strong>" }
       | some qa =>
         { session := { s with current_question := some qa, waiting_for_quiz_yes_no := false }
           db := db
           resp := "Here is your next question:<br><br><strong>" ++ qa.q ++ "</strong>" }) := by
  simp only [handleCore, hq, hw, hy, if_true, ite_true]

/-- Branch 2, `no`: end the quiz and report the final score. -/
theorem eq_continue_no (s : Session) (db : DB) (um lo t : String) (r : Nat)
    (hq : s.current_question = none) (hw : s.waiting_for_quiz_yes_no = true)
    (hy : lo ∉ (["yes", "y"] : List String)) (hn : lo ∈ (["no", "n"] : List String)) :
    handleCore s db um lo t r =
      { session := { s with waiting_for_quiz_yes_no := false }, db := db
        resp := "üëç Okay, quiz ended.<br>Your final score: <strong>" ++
          toString s.score ++ "/" ++ toString s.total_answered ++ "</strong>" } := by
  simp only [handleCore, hq, hw, hy, hn, if_true, ite_true, if_false, ite_false]

/-- Branch 2, anything else: demand a yes/no answer, touching nothing. -/
theorem eq_continue_other (s : Session) (db : DB) (um lo t : String) (r : Nat)
    (hq : s.current_question = none) (hw : s.waiting_for_quiz_yes_no = true)
    (hy : lo ∉ (["yes", "y"] : List String)) (hn : lo ∉ (["no", "n"] : List String)) :
    handleCore s db um lo t r =
      { session := s, db := db
        resp := "Please reply with <strong>yes</strong> or <strong>no</strong>." } := by
  simp only [handleCore, hq, hw, hy, hn, if_true, ite_true, if_false, ite_false]

/-- Branch 3: attendance capture consumes the message as the present list. -/
theorem eq_attendance (s : Session) (db : DB) (um lo t : String) (r : Nat)
    (hq : s.current_question = none) (hw : s.waiting_for_quiz_yes_no = false)
    (ht : s.is_taking_attendance = true) :
    handleCore s db um lo t r =
      (let present_names := ((splitComma um).map stripStr).filter (fun n => decide (n ≠ ""))
       let lower_present := present_names.map lowerStr
       let pdb := attendanceLoop t lower_present (get_all_students db) [] db
       let absent := (get_all_students db).filter (fun stu => decide (stu ∉ pdb.1))
       { session := { s with is_taking_attendance := false, present_students := pdb.1 }
         db := pdb.2
         resp :=
           if absent ≠ [] then
             "Attendance complete. " ++ toString pdb.1.length ++ " present, " ++
               toString absent.length ++ " absent." ++ "<br><br><strong>Absent:</strong> " ++
               joinSep ", " absent
           else
             "Attendance complete. " ++ toString pdb.1.length ++ " present, " ++
               toString absent.length ++ " absent." ++ "<br><br>Perfect attendance today!" }) := by
  simp only [handleCore, hq, hw, ht, if_true, ite_true, if_false, ite_false,
    Bool.false_eq_true]

/-- Branch 4: feedback capture stores the raw (stripped) message. -/
theorem eq_feedback_capture (s : Session) (db : DB) (um lo t : String) (r : Nat)
    (hq : s.current_question = none) (hw : s.waiting_for_quiz_yes_no = false)
    (ht : s.is_taking_attendance = false) (hf : s.awaiting_feedback = true) :
    handleCore s db um lo t r =
      { session := { s with awaiting_feedback := false }
        db := add_feedback db um
        resp := "‚úÖ Thank you for your feedback! It has been saved." } := by
  simp only [handleCore, hq, hw, ht, hf, if_true, ite_true, if_false, ite_false,
    Bool.false_eq_true]

/-- Branch 5, attendance-start phrases. -/
theorem eq_attendance_start (s : Session) (db : DB) (um lo t : String) (r : Nat)
    (hq : s.current_question = none) (hw : s.waiting_for_quiz_yes_no = false)
    (ht : s.is_taking_attendance = false) (hf : s.awaiting_feedback = false)
    (hm : lo ∈ (["mark my attendance", "mark attendance", "take attendance"] : List String)) :
    handleCore s db um lo t r =
      (if db.students = [] then
        { session := s, db := db
          resp := "No students found. Add students first using: <em>add students Alice, Bob</em>." }
       else
        { session := { s with is_taking_attendance := true }, db := db
          resp := "Okay, send a comma-separated list of <strong>present</strong> students for today." }) := by
  simp only [handleCore, hq, hw, ht, hf, hm, if_true, ite_true, if_false, ite_false,
    Bool.false_eq_true]
  rfl

/-- Branch 5, quiz-start phrases. -/
theorem eq_quiz_start (s : Session) (db : DB) (um lo t : String) (r : Nat)
    (hq : s.current_question = none) (hw : s.waiting_for_quiz_yes_no = false)
    (ht : s.is_taking_attendance = false) (hf : s.awaiting_feedback = false)
    (hm : lo ∈ (["start quiz", "quiz", "ask question", "start a quiz"] : List String)) :
    handleCore s db um lo t r =
      (let s1 : Session := if s.asked_questions = [] ∧ s.total_answered = 0 then
          { s with score := 0, total_answered := 0 } else s
       match pick_unused_question s1 r with
       | none =>
         { session := s1, db := db
           resp := "All questions already used. Type <em>reset quiz</em> to start over." }
       | some qa =>
         { session := { s1 with current_question := some qa }, db := db
           resp := "Here is a quiz question:<br><br><strong>" ++ qa.q ++ "</strong>" }) := by
  simp only [List.mem_cons, List.not_mem_nil, or_false] at hm
  rcases hm with rfl | rfl | rfl | rfl
  · simp only [handleCore, hq, hw, ht, hf]
    rfl
  · simp only [handleCore, hq, hw, ht, hf]
    rfl
  · simp only [handleCore, hq, hw, ht, hf]
    rfl
  · simp only [handleCore, hq, hw, ht, hf]
    rfl

/-- Branch 5, quiz-reset phrases. -/
theorem eq_reset (s : Session) (db : DB) (um lo t : String) (r : Nat)
    (hq : s.current_question = none) (hw : s.waiting_for_quiz_yes_no = false)
    (ht : s.is_taking_attendance = false) (hf : s.awaiting_feedback = false)
    (hm : lo ∈ (["reset quiz", "restart quiz"] : List String)) :
    handleCore s db um lo t r =
      { session := { s with
          current_question := none
          asked_questions := []
          waiting_for_quiz_yes_no := false
          score := 0
          total_answered := 0 }
        db := db
        resp := "üîÅ Quiz has been reset. Type <em>start quiz</em> to begin again." } := by
  simp only [List.mem_cons, List.not_mem_nil, or_false] at hm
  rcases hm with rfl | rfl
  · simp [handleCore, hq, hw, ht, hf]
  · simp [handleCore, hq, hw, ht, hf]

/-- Branch 5, stats phrases. -/
theorem eq_stats (s : Session) (db : DB) (um lo t : String) (r : Nat)
    (hq : s.current_question = none) (hw : s.waiting_for_quiz_yes_no = false)
    (ht : s.is_taking_attendance = false) (hf : s.awaiting_feedback = false)
    (hm : lo ∈ (["show attendance stats", "attendance stats", "stats"] : List String)) :
    handleCore s db um lo t r =
      (let rows := get_attendance db t
       let present := (rows.filter (fun row => decide (row.2 = "present"))).length
       let absent := (rows.filter (fun row => decide (row.2 = "absent"))).length
       if present + absent = 0 then
         { session := s, db := db, resp := "No attendance recorded for today yet." }
       else
         { session := s, db := db
           resp := "üìä <strong>Today's stats</strong><br>Total: " ++
             toString (present + absent) ++ "<br>Present: " ++ toString present ++
             "<br>Absent: " ++ toString absent }) := by
  simp only [List.mem_cons, List.not_mem_nil, or_false] at hm
  rcases hm with rfl | rfl | rfl
  · simp only [handleCore, hq, hw, ht, hf]
    rfl
  · simp only [handleCore, hq, hw, ht, hf]
    rfl
  · simp only [handleCore, hq, hw, ht, hf]
    rfl

/-- Branch 5, feedback-start phrases. -/
theorem eq_feedback_start (s : Session) (db : DB) (um lo t : String) (r : Nat)
    (hq : s.current_question = none) (hw : s.waiting_for_quiz_yes_no = false)
    (ht : s.is_taking_attendance = false) (hf : s.awaiting_feedback = false)
    (hm : lo ∈ (["give feedback", "feedback"] : List String)) :
    handleCore s db um lo t r =
      { session := { s with awaiting_feedback := true }, db := db
        resp := "Sure, please type your feedback message." } := by
  simp only [List.mem_cons, List.not_mem_nil, or_false] at hm
  rcases hm with rfl | rfl
  · simp [handleCore, hq, hw, ht, hf]
  · simp [handleCore, hq, hw, ht, hf]

/-- Branch 5, the `add students` prefix command. -/
theorem eq_add_students (s : Session) (db : DB) (um lo t : String) (r : Nat)
    (hq : s.current_question = none) (hw : s.waiting_for_quiz_yes_no = false)
    (ht : s.is_taking_attendance = false) (hf : s.awaiting_feedback = false)
    (hsw : startsWithStr lo "add students" = true) :
    handleCore s db um lo t r =
      (let names := ((splitComma (stripStr (dropStr um 12))).map stripStr).filter
        (fun n => decide (n ≠ ""))
       if names = [] then
         { session := s, db := db, resp := "Provide names: <em>add students Alice, Bob</em>." }
       else
         { session := s, db := names.foldl add_student db
           resp := "Students added: " ++ joinSep ", " names }) := by
  have h1 : lo ∉ (["mark my attendance", "mark attendance", "take attendance"] : List String) :=
    not_mem_of_startsWith hsw (by decide)
  have h2 : lo ∉ (["start quiz", "quiz", "ask question", "start a quiz"] : List String) :=
    not_mem_of_startsWith hsw (by decide)
  have h3 : lo ∉ (["reset quiz", "restart quiz"] : List String) :=
    not_mem_of_startsWith hsw (by decide)
  have h4 : lo ∉ (["show attendance stats", "attendance stats", "stats"] : List String) :=
    not_mem_of_startsWith hsw (by decide)
  have h5 : lo ∉ (["give feedback", "feedback"] : List String) :=
    not_mem_of_startsWith hsw (by decide)
  simp only [handleCore, hq, hw, ht, hf, h1, h2, h3, h4, h5, hsw, if_true, ite_true,
    if_false, ite_false, Bool.false_eq_true]

/-- Branch 5, random-student phrases. -/
theorem eq_random_student (s : Session) (db : DB) (um lo t : String) (r : Nat)
    (hq : s.current_question = none) (hw : s.waiting_for_quiz_yes_no = false)
    (ht : s.is_taking_attendance = false) (hf : s.awaiting_feedback = false)
    (hm : lo ∈ (["random student", "pick a student", "choose a student"] : List String)) :
    handleCore s db um lo t r =
      (if s.present_students = [] then
        { session := s, db := db, resp := "Please take attendance first so I know who is here." }
       else
        { session := s, db := db
          resp := "Okay, let's hear from‚Ä¶ <strong>" ++
            (s.present_students[r % s.present_students.length]?).getD "" ++ "</strong>!" }) := by
  simp only [List.mem_cons, List.not_mem_nil, or_false] at hm
  rcases hm with rfl | rfl | rfl
  · have hsw : startsWithStr "random student" "add students" = false := by decide
    simp only [handleCore, hq, hw, ht, hf, hsw]
    rfl
  · have hsw : startsWithStr "pick a student" "add students" = false := by decide
    simp only [handleCore, hq, hw, ht, hf, hsw]
    rfl
  · have hsw : startsWithStr "choose a student" "add students" = false := by decide
    simp only [handleCore, hq, hw, ht, hf, hsw]
    rfl

/-- Branch 5, help phrases. -/
theorem eq_help (s : Session) (db : DB) (um lo t : String) (r : Nat)
    (hq : s.current_question = none) (hw : s.waiting_for_quiz_yes_no = false)
    (ht : s.is_taking_attendance = false) (hf : s.awaiting_feedback = false)
    (hm : lo ∈ (["help", "commands"] : List String)) :
    (handleCore s db um lo t r).session = s ∧ (handleCore s db um lo t r).db = db := by
  simp only [List.mem_cons, List.not_mem_nil, or_false] at hm
  rcases hm with rfl | rfl
  · have hsw : startsWithStr "help" "add students" = false := by decide
    constructor <;> simp [handleCore, hq, hw, ht, hf, hsw]
  · have hsw : startsWithStr "commands" "add students" = false := by decide
    constructor <;> simp [handleCore, hq, hw, ht, hf, hsw]

/-- Branch 6: the fallback stores the message as feedback. -/
theorem eq_fallback (s : Session) (db : DB) (um lo t : String) (r : Nat)
    (hq : s.current_question = none) (hw : s.waiting_for_quiz_yes_no = false)
    (ht : s.is_taking_attendance = false) (hf : s.awaiting_feedback = false)
    (h1 : lo ∉ (["mark my attendance", "mark attendance", "take attendance"] : List String))
    (h2 : lo ∉ (["start quiz", "quiz", "ask question", "start a quiz"] : List String))
    (h3 : lo ∉ (["reset quiz", "restart quiz"] : List String))
    (h4 : lo ∉ (["show attendance stats", "attendance stats", "stats"] : List String))
    (h5 : lo ∉ (["give feedback", "feedback"] : List String))
    (h6 : startsWithStr lo "add students" = false)
    (h7 : lo ∉ (["random student", "pick a student", "choose a student"] : List String))
    (h8 : lo ∉ (["help", "commands"] : List String)) :
    handleCore s db um lo t r =
      { session := s, db := add_feedback db um
        resp := "‚úÖ Thank you for your feedback! It has been saved." } := by
  simp only [handleCore, hq, hw, ht, hf, h1, h2, h3, h4, h5, h6, h7, h8, if_true, ite_true,
    if_false, ite_false, Bool.false_eq_true]

/-! ## The session invariant -/

/-- Invariant maintained by every dispatcher step: the active-question and
yes/no flags are mutually exclusive, the active question is an unused bank
question, the asked list is a duplicate-free list of bank question texts,
`total_answered` counts it, and `score` never exceeds `total_answered`. -/
def SessionInv (s : Session) : Prop :=
  (s.current_question = none ∨ s.waiting_for_quiz_yes_no = false) ∧
  (∀ qa : QA, s.current_question = some qa → qa ∈ quiz_questions ∧ qa.q ∉ s.asked_questions) ∧
  s.asked_questions.Nodup ∧
  (∀ x ∈ s.asked_questions, x ∈ quiz_questions.map QA.q) ∧
  s.total_answered = s.asked_questions.length ∧
  s.score ≤ s.total_answered

theorem inv_initSession : SessionInv initSession := by
  refine ⟨Or.inl rfl, ?_, ?_, ?_, rfl, le_refl _⟩ <;> simp [initSession]

theorem inv_step_core (s : Session) (db : DB) (um lo t : String) (r : Nat)
    (h : SessionInv s) : SessionInv (handleCore s db um lo t r).session := by
  obtain ⟨h1, h2, h3, h4, h5, h6⟩ := h
  cases hq : s.current_question with
  | some qobj =>
    obtain ⟨hmem, hnot⟩ := h2 qobj hq
    rw [eq_answer s db um lo t r qobj hq]
    refine ⟨Or.inl rfl, ?_, ?_, ?_, ?_, ?_⟩
    · intro qa hqa
      exact Option.noConfusion hqa
    · show (s.asked_questions ++ [qobj.q]).Nodup
      rw [List.nodup_append]
      refine ⟨h3, List.nodup_singleton _, ?_⟩
      intro x hx hx'
      simp only [List.mem_singleton] at hx'
      exact hnot (hx' ▸ hx)
    · show ∀ x ∈ s.asked_questions ++ [qobj.q], x ∈ quiz_questions.map QA.q
      intro x hx
      rcases List.mem_append.mp hx with hx | hx
      · exact h4 x hx
      · simp only [List.mem_singleton] at hx
        exact hx ▸ List.mem_map_of_mem QA.q hmem
    · show s.total_answered + 1 = (s.asked_questions ++ [qobj.q]).length
      rw [h5, List.length_append, List.length_singleton]
    · show (if pyIn (stripStr (lowerStr qobj.a)) lo then s.score + 1 else s.score) ≤
        s.total_answered + 1
      split <;> omega
  | none =>
    cases hw : s.waiting_for_quiz_yes_no with
    | true =>
      by_cases hy : lo ∈ (["yes", "y"] : List String)
      · rw [eq_continue_yes s db um lo t r hq hw hy]
        cases hpick : pick_unused_question s r with
        | none =>
          exact ⟨Or.inr rfl, fun qa hqa => h2 qa hqa, h3, h4, h5, h6⟩
        | some qa =>
          obtain ⟨hbank, hnotin⟩ := pick_unused_eq_some hpick
          refine ⟨Or.inr rfl, ?_, h3, h4, h5, h6⟩
          intro qb hqb
          cases hqb
          exact ⟨hbank, hnotin⟩
      · by_cases hn : lo ∈ (["no", "n"] : List String)
        · rw [eq_continue_no s db um lo t r hq hw hy hn]
          exact ⟨Or.inr rfl, fun qa hqa => h2 qa hqa, h3, h4, h5, h6⟩
        · rw [eq_continue_other s db um lo t r hq hw hy hn]
          exact ⟨Or.inl hq, h2, h3, h4, h5, h6⟩
    | false =>
      cases ht : s.is_taking_attendance with
      | true =>
        rw [eq_attendance s db um lo t r hq hw ht]
        exact ⟨Or.inl hq, h2, h3, h4, h5, h6⟩
      | false =>
        cases hf : s.awaiting_feedback with
        | true =>
          rw [eq_feedback_capture s db um lo t r hq hw ht hf]
          exact ⟨Or.inl hq, h2, h3, h4, h5, h6⟩
        | false =>
          by_cases hm1 : lo ∈ (["mark my attendance", "mark attendance", "take attendance"] : List String)
          · rw [eq_attendance_start s db um lo t r hq hw ht hf hm1]
            split
            · exact ⟨Or.inl hq, h2, h3, h4, h5, h6⟩
            · exact ⟨Or.inl hq, h2, h3, h4, h5, h6⟩
          · by_cases hm2 : lo ∈ (["start quiz", "quiz", "ask question", "start a quiz"] : List String)
            · rw [eq_quiz_start s db um lo t r hq hw ht hf hm2]
              dsimp only
              have hcur : (if s.asked_questions = [] ∧ s.total_answered = 0 then
                  { s with score := 0, total_answered := 0 } else s).current_question =
                  s.current_question := by
                split <;> rfl
              have hask : (if s.asked_questions = [] ∧ s.total_answered = 0 then
                  { s with score := 0, total_answered := 0 } else s).asked_questions =
                  s.asked_questions := by
                split <;> rfl
              have hwait : (if s.asked_questions = [] ∧ s.total_answered = 0 then
                  { s with score := 0, total_answered := 0 } else s).waiting_for_quiz_yes_no =
                  s.waiting_for_quiz_yes_no := by
                split <;> rfl
              have htot : (if s.asked_questions = [] ∧ s.total_answered = 0 then
                  { s with score := 0, total_answered := 0 } else s).total_answered =
                  (if s.asked_questions = [] ∧ s.total_answered = 0 then
                  { s with score := 0, total_answered := 0 } else s).asked_questions.length := by
                split
                · rename_i hc
                  show (0 : Nat) = s.asked_questions.length
                  rw [hc.1]
                  rfl
                · exact h5
              have hsc : (if s.asked_questions = [] ∧ s.total_answered = 0 then
                  { s with score := 0, total_answered := 0 } else s).score ≤
                  (if s.asked_questions = [] ∧ s.total_answered = 0 then
                  { s with score := 0, total_answered := 0 } else s).total_answered := by
                split
                · exact le_refl 0
                · exact h6
              cases hpick : pick_unused_question (if s.asked_questions = [] ∧ s.total_answered = 0
                  then { s with score := 0, total_answered := 0 } else s) r with
              | none =>
                dsimp only
                refine ⟨Or.inl (hcur.trans hq), ?_, ?_, ?_, htot, hsc⟩
                · intro qa hqa
                  have hh := h2 qa (hcur.symm.trans hqa)
                  refine ⟨hh.1, ?_⟩
                  rw [hask]
                  exact hh.2
                · rw [hask]
                  exact h3
                · rw [hask]
                  exact h4
              | some qa =>
                obtain ⟨hbank, hnotin⟩ := pick_unused_eq_some hpick
                dsimp only
                refine ⟨Or.inr (hwait.trans hw), ?_, ?_, ?_, htot, hsc⟩
                · intro qb hqb
                  cases hqb
                  exact ⟨hbank, hnotin⟩
                · rw [hask]
                  exact h3
                · rw [hask]
                  exact h4
            · by_cases hm3 : lo ∈ (["reset quiz", "restart quiz"] : List String)
              · rw [eq_reset s db um lo t r hq hw ht hf hm3]
                refine ⟨Or.inl rfl, ?_, List.nodup_nil, ?_, rfl, le_refl _⟩
                · intro qa hqa
                  exact Option.noConfusion hqa
                · intro x hx
                  exact absurd hx (List.not_mem_nil x)
              · by_cases hm4 : lo ∈ (["show attendance stats", "attendance stats", "stats"] : List String)
                · rw [eq_stats s db um lo t r hq hw ht hf hm4]
                  dsimp only
                  split
                  · exact ⟨Or.inl hq, h2, h3, h4, h5, h6⟩
                  · exact ⟨Or.inl hq, h2, h3, h4, h5, h6⟩
                · by_cases hm5 : lo ∈ (["give feedback", "feedback"] : List String)
                  · rw [eq_feedback_start s db um lo t r hq hw ht hf hm5]
                    exact ⟨Or.inl hq, h2, h3, h4, h5, h6⟩
                  · by_cases hsw : startsWithStr lo "add students" = true
                    · rw [eq_add_students s db um lo t r hq hw ht hf hsw]
                      dsimp only
                      split
                      · exact ⟨Or.inl hq, h2, h3, h4, h5, h6⟩
                      · exact ⟨Or.inl hq, h2, h3, h4, h5, h6⟩
                    · have hswf : startsWithStr lo "add students" = false := by
                        simpa using hsw
                      by_cases hm6 : lo ∈ (["random student", "pick a student", "choose a student"] : List String)
                      · rw [eq_random_student s db um lo t r hq hw ht hf hm6]
                        split
                        · exact ⟨Or.inl hq, h2, h3, h4, h5, h6⟩
                        · exact ⟨Or.inl hq, h2, h3, h4, h5, h6⟩
                      · by_cases hm7 : lo ∈ (["help", "commands"] : List String)
                        · obtain ⟨hs, hd⟩ := eq_help s db um lo t r hq hw ht hf hm7
                          rw [hs]
                          exact ⟨Or.inl hq, h2, h3, h4, h5, h6⟩
                        · rw [eq_fallback s db um lo t r hq hw ht hf hm1 hm2 hm3 hm4 hm5 hswf hm6 hm7]
                          exact ⟨Or.inl hq, h2, h3, h4, h5, h6⟩

theorem inv_step (s : Session) (db : DB) (m t : String) (r : Nat) (h : SessionInv s) :
    SessionInv (handle s db m t r).session :=
  inv_step_core s db (stripStr m) (lowerStr (stripStr m)) t r h

/-- The invariant holds after any run from an invariant-satisfying start. -/
theorem inv_runMsgs (inps : List (String × String × Nat)) :
    ∀ p : Session × DB, SessionInv p.1 → SessionInv (runMsgs p inps).1 := by
  induction inps with
  | nil => exact fun p hp => hp
  | cons i is ih =>
    intro p hp
    exact ih (stepPair p i) (inv_step p.1 p.2 i.1 i.2.1 i.2.2 hp)

/-- Every reachable session state satisfies the invariant. -/
theorem inv_reachable {s : Session} (h : ReachableSession s) : SessionInv s := by
  obtain ⟨db0, inps, hrun⟩ := h
  rw [← hrun]
  exact inv_runMsgs inps (initSession, db0) inv_initSession

/-! ## Attendance-loop and roster helpers -/

/-- Closed form of the attendance loop: it appends exactly one row per
roster student and accumulates the case-insensitive matches in order. -/
theorem attendanceLoop_spec (t : String) (lows : List String) :
    ∀ (l pres : List String) (db : DB), (∀ x ∈ l, x ∈ db.students) →
    attendanceLoop t lows l pres db =
      (pres ++ l.filter (fun stu => decide (lowerStr stu ∈ lows)),
       { db with attendance := (db.attendance ++
          l.map (fun stu => (t, stu, if lowerStr stu ∈ lows then "present" else "absent"))) }) := by
  intro l
  induction l with
  | nil =>
    intro pres db h
    simp [attendanceLoop]
  | cons stu rest ih =>
    intro pres db hsub
    have hstu : stu ∈ db.students := hsub stu (List.mem_cons_self _ _)
    have hrest : ∀ x ∈ rest, x ∈ db.students := fun x hx => hsub x (List.mem_cons_of_mem _ hx)
    by_cases hm : lowerStr stu ∈ lows
    · rw [attendanceLoop, if_pos hm, mark_attendance, if_pos hstu,
        ih (pres ++ [stu]) { db with attendance := db.attendance ++ [(t, stu, "present")] } hrest]
      simp [hm, List.filter_cons, List.append_assoc]
    · rw [attendanceLoop, if_neg hm, mark_attendance, if_pos hstu,
        ih pres { db with attendance := db.attendance ++ [(t, stu, "absent")] } hrest]
      simp [hm, List.filter_cons, List.append_assoc]

/-- Membership after one roster insert. -/
theorem mem_add_student {db : DB} {n x : String} :
    x ∈ (add_student db n).students ↔ x ∈ db.students ∨ x = n := by
  unfold add_student
  split
  · rename_i hn
    constructor
    · exact Or.inl
    · rintro (hx | rfl)
      · exact hx
      · exact hn
  · simp [List.mem_append]

/-- Inserting keeps the roster duplicate-free. -/
theorem add_student_nodup {db : DB} (h : db.students.Nodup) (n : String) :
    (add_student db n).students.Nodup := by
  unfold add_student
  split
  · exact h
  · rename_i hn
    rw [List.nodup_append]
    refine ⟨h, List.nodup_singleton _, ?_⟩
    intro x hx hx'
    simp only [List.mem_singleton] at hx'
    exact hn (hx' ▸ hx)

/-- Re-inserting an existing name is a no-op (the swallowed UNIQUE error). -/
theorem add_student_eq_of_mem {db : DB} {n : String} (h : n ∈ db.students) :
    add_student db n = db := by
  unfold add_student
  rw [if_pos h]

theorem foldl_add_student_mem_mono :
    ∀ (ns : List String) (db : DB) (x : String), x ∈ db.students →
      x ∈ (ns.foldl add_student db).students := by
  intro ns
  induction ns with
  | nil => exact fun db x hx => hx
  | cons n rest ih =>
    intro db x hx
    exact ih (add_student db n) x (mem_add_student.mpr (Or.inl hx))

theorem foldl_add_student_mem :
    ∀ (ns : List String) (db : DB) (n : String), n ∈ ns →
      n ∈ (ns.foldl add_student db).students := by
  intro ns
  induction ns with
  | nil =>
    intro db n hn
    cases hn
  | cons m rest ih =>
    intro db n hn
    rcases List.mem_cons.mp hn with rfl | hn
    · exact foldl_add_student_mem_mono rest _ n (mem_add_student.mpr (Or.inr rfl))
    · exact ih _ n hn

theorem foldl_add_student_nodup :
    ∀ (ns : List String) (db : DB), db.students.Nodup →
      (ns.foldl add_student db).students.Nodup := by
  intro ns
  induction ns with
  | nil => exact fun db h => h
  | cons n rest ih =>
    intro db h
    exact ih (add_student db n) (add_student_nodup h n)

/-- Adding names that are all present already changes nothing. -/
theorem foldl_add_student_fixed :
    ∀ (ns : List String) (db : DB), (∀ n ∈ ns, n ∈ db.students) →
      ns.foldl add_student db = db := by
  intro ns
  induction ns with
  | nil => exact fun db h => rfl
  | cons n rest ih =>
    intro db h
    have hn : n ∈ db.students := h n (List.mem_cons_self _ _)
    show rest.foldl add_student (add_student db n) = db
    rw [add_student_eq_of_mem hn]
    exact ih db (fun m hm => h m (List.mem_cons_of_mem _ hm))

/-! ## Claim theorems -/

/-- C1: whenever a question is active, `handle` increments `total_answered`,
increments `score` exactly when the lowercased-stripped expected answer is a
substring (Python `in`) of the trimmed lowercased message, appends the
question text to `asked_questions`, clears `current_question`, sets
`waiting_for_quiz_yes_no`, leaves the store untouched, and on an incorrect
answer the response embeds the canonical answer text (as the code prints it,
lowercased and stripped). -/
theorem handle_active_question_scoring (s : Session) (db : DB) (msg today : String)
    (r : Nat) (qobj : QA) (hq : s.current_question = some qobj) :
    (handle s db msg today r).session.total_answered = s.total_answered + 1 ∧
    (handle s db msg today r).session.score =
      (if pyIn (stripStr (lowerStr qobj.a)) (lowerStr (stripStr msg)) then s.score + 1
       else s.score) ∧
    (handle s db msg today r).session.asked_questions = s.asked_questions ++ [qobj.q] ∧
    (handle s db msg today r).session.current_question = none ∧
    (handle s db msg today r).session.waiting_for_quiz_yes_no = true ∧
    (handle s db msg today r).db = db ∧
    (¬ pyIn (stripStr (lowerStr qobj.a)) (lowerStr (stripStr msg)) →
      pyIn (stripStr (lowerStr qobj.a)) (handle s db msg today r).resp) := by
  rw [handle, eq_answer s db (stripStr msg) (lowerStr (stripStr msg)) today r qobj hq]
  refine ⟨rfl, rfl, rfl, rfl, rfl, rfl, ?_⟩
  intro hnot
  show pyIn (stripStr (lowerStr qobj.a))
    ((if pyIn (stripStr (lowerStr qobj.a)) (lowerStr (stripStr msg)) then "‚úÖ Correct! Well done."
      else "‚ùå Incorrect. The correct answer is: <strong>" ++
        stripStr (lowerStr qobj.a) ++ "</strong>.") ++
      "<br><br>Do you want another question? (yes/no)")
  rw [if_neg hnot]
  refine ⟨"‚ùå Incorrect. The correct answer is: <strong>".data,
    "</strong>.".data ++ "<br><br>Do you want another question? (yes/no)".data, ?_⟩
  simp

/-- Witness for C1 at the H2O question: "it is water indeed" scores correct. -/
theorem handle_active_question_scoring_witness :
    (handle { initSession with current_question := some (QA.mk "What is H2O?" "Water") }
      emptyDB "it is water indeed" "2026-10-12" 0).session.score = 1 ∧
    (handle { initSession with current_question := some (QA.mk "What is H2O?" "Water") }
      emptyDB "it is water indeed" "2026-10-12" 0).session.total_answered = 1 ∧
    (handle { initSession with current_question := some (QA.mk "What is H2O?" "Water") }
      emptyDB "it is water indeed" "2026-10-12" 0).session.asked_questions = ["What is H2O?"] ∧
    (handle { initSession with current_question := some (QA.mk "What is H2O?" "Water") }
      emptyDB "it is water indeed" "2026-10-12" 0).session.waiting_for_quiz_yes_no = true := by
  have h := handle_active_question_scoring
    { initSession with current_question := some (QA.mk "What is H2O?" "Water") }
    emptyDB "it is water indeed" "2026-10-12" 0 (QA.mk "What is H2O?" "Water") rfl
  obtain ⟨ht, hs, ha, -, hw, -, -⟩ := h
  refine ⟨?_, ?_, ?_, hw⟩
  · rw [hs, if_pos (by decide)]
    rfl
  · rw [ht]
    rfl
  · rw [ha]
    rfl

/-- C2: while the yes/no gate is armed (and no question is active, as the
precedence chain guarantees), any non-yes/no message leaves everything
unchanged and re-prompts; "no"/"n" clears the flag and reports
`score/totalAnswered`; "yes"/"y" installs an unused bank question and clears
the flag, or, with the bank exhausted, clears the flag and reports the final
score. -/
theorem handle_quiz_continue_gate (s : Session) (db : DB) (msg today : String) (r : Nat)
    (hq : s.current_question = none) (hw : s.waiting_for_quiz_yes_no = true) :
    (lowerStr (stripStr msg) ∉ (["yes", "y"] : List String) →
     lowerStr (stripStr msg) ∉ (["no", "n"] : List String) →
      (handle s db msg today r).session = s ∧ (handle s db msg today r).db = db ∧
      (handle s db msg today r).resp =
        "Please reply with <strong>yes</strong> or <strong>no</strong>.") ∧
    (lowerStr (stripStr msg) ∈ (["no", "n"] : List String) →
      (handle s db msg today r).session = { s with waiting_for_quiz_yes_no := false } ∧
      (handle s db msg today r).db = db ∧
      pyIn (toString s.score ++ "/" ++ toString s.total_answered)
        (handle s db msg today r).resp) ∧
    (lowerStr (stripStr msg) ∈ (["yes", "y"] : List String) →
      (∃ qa : QA, pick_unused_question s r = some qa ∧ qa ∈ quiz_questions ∧
        qa.q ∉ s.asked_questions ∧
        (handle s db msg today r).session =
          { s with current_question := some qa, waiting_for_quiz_yes_no := false } ∧
        (handle s db msg today r).db = db) ∨
      (unusedQuestions s.asked_questions = [] ∧
        (handle s db msg today r).session = { s with waiting_for_quiz_yes_no := false } ∧
        (handle s db msg today r).db = db ∧
        pyIn (toString s.score ++ "/" ++ toString s.total_answered)
          (handle s db msg today r).resp)) := by
  refine ⟨?_, ?_, ?_⟩
  · intro hy hn
    rw [handle, eq_continue_other s db (stripStr msg) (lowerStr (stripStr msg)) today r hq hw hy hn]
    exact ⟨rfl, rfl, rfl⟩
  · intro hn
    have hy : lowerStr (stripStr msg) ∉ (["yes", "y"] : List String) := by
      simp only [List.mem_cons, List.not_mem_nil, or_false] at hn ⊢
      rcases hn with h | h <;> rw [h] <;> decide
    rw [handle, eq_continue_no s db (stripStr msg) (lowerStr (stripStr msg)) today r hq hw hy hn]
    refine ⟨rfl, rfl, ?_⟩
    dsimp only
    exact pyIn_score _ _ _ _ _
  · intro hy
    rw [handle, eq_continue_yes s db (stripStr msg) (lowerStr (stripStr msg)) today r hq hw hy]
    cases hpick : pick_unused_question s r with
    | none =>
      right
      refine ⟨pick_unused_eq_none.mp hpick, rfl, rfl, ?_⟩
      dsimp only
      exact pyIn_score _ _ _ _ _
    | some qa =>
      left
      obtain ⟨hb, hn⟩ := pick_unused_eq_some hpick
      exact ⟨qa, rfl, hb, hn, rfl, rfl⟩

/-- Witness for C2: "maybe" is re-prompted with state unchanged; "no" ends
the quiz reporting 2/3. -/
theorem handle_quiz_continue_gate_witness :
    (handle { initSession with waiting_for_quiz_yes_no := true, score := 2, total_answered := 3 }
      emptyDB "maybe" "2026-10-12" 0).session =
      { initSession with waiting_for_quiz_yes_no := true, score := 2, total_answered := 3 } ∧
    (handle { initSession with waiting_for_quiz_yes_no := true, score := 2, total_answered := 3 }
      emptyDB "maybe" "2026-10-12" 0).resp =
      "Please reply with <strong>yes</strong> or <strong>no</strong>." ∧
    (handle { initSession with waiting_for_quiz_yes_no := true, score := 2, total_answered := 3 }
      emptyDB "no" "2026-10-12" 0).session =
      { initSession with waiting_for_quiz_yes_no := false, score := 2, total_answered := 3 } ∧
    pyIn (toString (2 : Nat) ++ "/" ++ toString (3 : Nat))
      (handle { initSession with waiting_for_quiz_yes_no := true, score := 2, total_answered := 3 }
        emptyDB "no" "2026-10-12" 0).resp := by
  have h1 := handle_quiz_continue_gate
    { initSession with waiting_for_quiz_yes_no := true, score := 2, total_answered := 3 }
    emptyDB "maybe" "2026-10-12" 0 rfl rfl
  have h2 := handle_quiz_continue_gate
    { initSession with waiting_for_quiz_yes_no := true, score := 2, total_answered := 3 }
    emptyDB "no" "2026-10-12" 0 rfl rfl
  obtain ⟨ho, -, -⟩ := h1
  obtain ⟨-, hn, -⟩ := h2
  have ho2 := ho (by decide) (by decide)
  have hn2 := hn (by decide)
  exact ⟨ho2.1, ho2.2.2, hn2.1, hn2.2.2⟩

/-- C3: in every session state reachable from the initial state by `handle`
invocations, `current_question` and `waiting_for_quiz_yes_no` are never
simultaneously non-null/true. -/
theorem reachable_no_question_while_waiting (s : Session) (h : ReachableSession s) :
    ¬ (s.current_question ≠ none ∧ s.waiting_for_quiz_yes_no = true) := by
  obtain ⟨h1, -, -, -, -, -⟩ := inv_reachable h
  rintro ⟨hne, hwt⟩
  rcases h1 with h1 | h1
  · exact hne h1
  · rw [h1] at hwt
    cases hwt

/-- Witness for C3 at the reachable state after starting a quiz and answering
its question (the yes/no flag is then set and no question is active). -/
theorem reachable_no_question_while_waiting_witness :
    ReachableSession (runMsgs (initSession, emptyDB)
      [("start quiz", "2026-10-12", 0), ("mitochondria", "2026-10-12", 0)]).1 ∧
    ¬ ((runMsgs (initSession, emptyDB)
      [("start quiz", "2026-10-12", 0), ("mitochondria", "2026-10-12", 0)]).1.current_question ≠ none ∧
      (runMsgs (initSession, emptyDB)
      [("start quiz", "2026-10-12", 0), ("mitochondria", "2026-10-12", 0)]).1.waiting_for_quiz_yes_no = true) :=
  ⟨⟨emptyDB, [("start quiz", "2026-10-12", 0), ("mitochondria", "2026-10-12", 0)], rfl⟩,
   reachable_no_question_while_waiting _
     ⟨emptyDB, [("start quiz", "2026-10-12", 0), ("mitochondria", "2026-10-12", 0)], rfl⟩⟩

/-- C10: in every reachable session state, `total_answered` equals the length
of `asked_questions`, `score` is at most `total_answered`, and both are at
most 9 between resets. -/
theorem reachable_score_bounds (s : Session) (h : ReachableSession s) :
    s.total_answered = s.asked_questions.length ∧ s.score ≤ s.total_answered ∧
    s.total_answered ≤ 9 ∧ s.score ≤ 9 := by
  obtain ⟨-, -, h3, h4, h5, h6⟩ := inv_reachable h
  have hlen := asked_le_nine h3 h4
  exact ⟨h5, h6, by omega, by omega⟩

/-- Witness for C10 at the reachable state after one answered question. -/
theorem reachable_score_bounds_witness :
    ReachableSession (runMsgs (initSession, emptyDB)
      [("start quiz", "2026-10-12", 0), ("mitochondria", "2026-10-12", 0)]).1 ∧
    ((runMsgs (initSession, emptyDB)
      [("start quiz", "2026-10-12", 0), ("mitochondria", "2026-10-12", 0)]).1.total_answered =
      (runMsgs (initSession, emptyDB)
      [("start quiz", "2026-10-12", 0), ("mitochondria", "2026-10-12", 0)]).1.asked_questions.length ∧
     (runMsgs (initSession, emptyDB)
      [("start quiz", "2026-10-12", 0), ("mitochondria", "2026-10-12", 0)]).1.score ≤
      (runMsgs (initSession, emptyDB)
      [("start quiz", "2026-10-12", 0), ("mitochondria", "2026-10-12", 0)]).1.total_answered ∧
     (runMsgs (initSession, emptyDB)
      [("start quiz", "2026-10-12", 0), ("mitochondria", "2026-10-12", 0)]).1.total_answered ≤ 9 ∧
     (runMsgs (initSession, emptyDB)
      [("start quiz", "2026-10-12", 0), ("mitochondria", "2026-10-12", 0)]).1.score ≤ 9) :=
  ⟨⟨emptyDB, [("start quiz", "2026-10-12", 0), ("mitochondria", "2026-10-12", 0)], rfl⟩,
   reachable_score_bounds _
     ⟨emptyDB, [("start quiz", "2026-10-12", 0), ("mitochondria", "2026-10-12", 0)], rfl⟩⟩

/-- C4 counterexample: with a question active, the message "reset quiz" is
consumed as a quiz answer by the higher-precedence answer branch, so the quiz
fields are NOT cleared: the asked list gains the question, the yes/no flag is
set, and `total_answered` becomes 1. -/
theorem reset_quiz_not_unconditional_cex :
    (handle { initSession with current_question := some (QA.mk "What is H2O?" "Water") }
      emptyDB "reset quiz" "2026-10-12" 0).session.asked_questions = ["What is H2O?"] ∧
    (handle { initSession with current_question := some (QA.mk "What is H2O?" "Water") }
      emptyDB "reset quiz" "2026-10-12" 0).session.waiting_for_quiz_yes_no = true ∧
    (handle { initSession with current_question := some (QA.mk "What is H2O?" "Water") }
      emptyDB "reset quiz" "2026-10-12" 0).session.total_answered = 1 := by
  decide

/-- C4 (amended): in a session with no active question, yes/no gate,
attendance capture or feedback capture, a quiz-reset message clears
`current_question`, `asked_questions`, `waiting_for_quiz_yes_no`, `score`
and `total_answered`, leaves the store untouched, and leaves the non-quiz
session fields (`is_taking_attendance`, `present_students`,
`awaiting_feedback`) unchanged. -/
theorem handle_reset_quiz_idle (s : Session) (db : DB) (msg today : String) (r : Nat)
    (hq : s.current_question = none) (hw : s.waiting_for_quiz_yes_no = false)
    (ht : s.is_taking_attendance = false) (hf : s.awaiting_feedback = false)
    (hm : lowerStr (stripStr msg) ∈ (["reset quiz", "restart quiz"] : List String)) :
    (handle s db msg today r).session = { s with
      current_question := none
      asked_questions := []
      waiting_for_quiz_yes_no := false
      score := 0
      total_answered := 0 } ∧
    (handle s db msg today r).db = db ∧
    (handle s db msg today r).session.is_taking_attendance = s.is_taking_attendance ∧
    (handle s db msg today r).session.present_students = s.present_students ∧
    (handle s db msg today r).session.awaiting_feedback = s.awaiting_feedback := by
  rw [handle, eq_reset s db (stripStr msg) (lowerStr (stripStr msg)) today r hq hw ht hf hm]
  exact ⟨rfl, rfl, rfl, rfl, rfl⟩

/-- Witness for the amended C4, from a state with quiz progress and a
non-empty present list. -/
theorem handle_reset_quiz_idle_witness :
    (handle { initSession with present_students := ["Alice"], asked_questions := ["What is H2O?"], score := 1, total_answered := 1 }
      emptyDB "reset quiz" "2026-10-12" 0).session.asked_questions = [] ∧
    (handle { initSession with present_students := ["Alice"], asked_questions := ["What is H2O?"], score := 1, total_answered := 1 }
      emptyDB "reset quiz" "2026-10-12" 0).session.score = 0 ∧
    (handle { initSession with present_students := ["Alice"], asked_questions := ["What is H2O?"], score := 1, total_answered := 1 }
      emptyDB "reset quiz" "2026-10-12" 0).session.present_students = ["Alice"] := by
  have h := handle_reset_quiz_idle
    { initSession with present_students := ["Alice"], asked_questions := ["What is H2O?"], score := 1, total_answered := 1 }
    emptyDB "reset quiz" "2026-10-12" 0 rfl rfl rfl rfl (by decide)
  obtain ⟨hs, -, -, hp, -⟩ := h
  refine ⟨?_, ?_, ?_⟩
  · rw [hs]
  · rw [hs]
  · rw [hp]

/-- C5: in attendance-capture mode, `handle` clears the flag, splits the
message on commas into trimmed non-empty candidates, sets
`present_students` to the roster students matching a candidate
case-insensitively, and appends exactly one attendance row per roster
student for today, "present" on a match and "absent" otherwise, leaving
the roster and feedback tables unchanged. -/
theorem handle_attendance_capture (s : Session) (db : DB) (msg today : String) (r : Nat)
    (hq : s.current_question = none) (hw : s.waiting_for_quiz_yes_no = false)
    (ht : s.is_taking_attendance = true) :
    (handle s db msg today r).session.is_taking_attendance = false ∧
    (handle s db msg today r).session.present_students =
      (get_all_students db).filter (fun stu => decide (lowerStr stu ∈
        (((splitComma (stripStr msg)).map stripStr).filter
          (fun n => decide (n ≠ ""))).map lowerStr)) ∧
    (handle s db msg today r).db.students = db.students ∧
    (handle s db msg today r).db.feedback = db.feedback ∧
    (handle s db msg today r).db.attendance = db.attendance ++
      (get_all_students db).map (fun stu => (today, stu,
        if lowerStr stu ∈ (((splitComma (stripStr msg)).map stripStr).filter
          (fun n => decide (n ≠ ""))).map lowerStr
        then "present" else "absent")) := by
  rw [handle, eq_attendance s db (stripStr msg) (lowerStr (stripStr msg)) today r hq hw ht]
  dsimp only
  rw [attendanceLoop_spec today
    ((((splitComma (stripStr msg)).map stripStr).filter (fun n => decide (n ≠ ""))).map lowerStr)
    (get_all_students db) [] db (fun x hx => hx)]
  exact ⟨rfl, List.nil_append _, rfl, rfl, rfl⟩

/-- Witness for C5: roster `["Alice", "Bob"]`, capture message "alice" —
present becomes `["Alice"]`, Bob is recorded absent, and the attendance
query for today returns both rows. -/
theorem handle_attendance_capture_witness :
    (handle { initSession with is_taking_attendance := true }
      { students := ["Alice", "Bob"], attendance := [], feedback := [] }
      "alice" "2026-10-12" 0).session.present_students = ["Alice"] ∧
    (handle { initSession with is_taking_attendance := true }
      { students := ["Alice", "Bob"], attendance := [], feedback := [] }
      "alice" "2026-10-12" 0).db.attendance =
      [("2026-10-12", "Alice", "present"), ("2026-10-12", "Bob", "absent")] ∧
    get_attendance (handle { initSession with is_taking_attendance := true }
      { students := ["Alice", "Bob"], attendance := [], feedback := [] }
      "alice" "2026-10-12" 0).db "2026-10-12" =
      [("Alice", "present"), ("Bob", "absent")] ∧
    (handle { initSession with is_taking_attendance := true }
      { students := ["Alice", "Bob"], attendance := [], feedback := [] }
      "alice" "2026-10-12" 0).resp =
      "Attendance complete. 1 present, 1 absent.<br><br><strong>Absent:</strong> Bob" := by
  have h := handle_attendance_capture { initSession with is_taking_attendance := true }
    { students := ["Alice", "Bob"], attendance := [], feedback := [] }
    "alice" "2026-10-12" 0 rfl rfl rfl
  obtain ⟨-, hp, -, -, hatt⟩ := h
  refine ⟨?_, ?_, ?_, ?_⟩
  · rw [hp]
    decide
  · rw [hatt]
    decide
  · decide
  · decide

/-- C6: with no capture/quiz mode active, a quiz-start phrase resets the
score counters to 0 exactly when no question has been answered this cycle,
then installs an unused bank question as `current_question` — each unused
question being installed for some random draw — or returns the exhaustion
message (with no question installed) when every bank question has been
asked. -/
theorem handle_quiz_start_spec (s : Session) (db : DB) (msg today : String) (r : Nat)
    (hq : s.current_question = none) (hw : s.waiting_for_quiz_yes_no = false)
    (ht : s.is_taking_attendance = false) (hf : s.awaiting_feedback = false)
    (hm : lowerStr (stripStr msg) ∈
      (["start quiz", "quiz", "ask question", "start a quiz"] : List String)) :
    (handle s db msg today r).session.score =
      (if s.asked_questions = [] ∧ s.total_answered = 0 then 0 else s.score) ∧
    (handle s db msg today r).session.total_answered =
      (if s.asked_questions = [] ∧ s.total_answered = 0 then 0 else s.total_answered) ∧
    (handle s db msg today r).db = db ∧
    ((∀ qa ∈ quiz_questions, qa.q ∈ s.asked_questions) →
      (handle s db msg today r).session.current_question = none ∧
      (handle s db msg today r).resp =
        "All questions already used. Type <em>reset quiz</em> to start over.") ∧
    (unusedQuestions s.asked_questions ≠ [] →
      ∃ qa : QA, (handle s db msg today r).session.current_question = some qa ∧
        qa ∈ quiz_questions ∧ qa.q ∉ s.asked_questions) ∧
    (∀ qa ∈ unusedQuestions s.asked_questions, ∃ k,
      (handle s db msg today k).session.current_question = some qa) := by
  have hask : (if s.asked_questions = [] ∧ s.total_answered = 0 then
      { s with score := 0, total_answered := 0 } else s).asked_questions =
      s.asked_questions := by
    split <;> rfl
  have hD : ∀ qa ∈ unusedQuestions s.asked_questions, ∃ k,
      (handle s db msg today k).session.current_question = some qa := by
    intro qa hqa
    have hqa2 : qa ∈ unusedQuestions ((if s.asked_questions = [] ∧ s.total_answered = 0 then
        { s with score := 0, total_answered := 0 } else s)).asked_questions := by
      rw [hask]
      exact hqa
    obtain ⟨k, hk⟩ := pick_unused_surjective hqa2
    refine ⟨k, ?_⟩
    rw [handle, eq_quiz_start s db (stripStr msg) (lowerStr (stripStr msg)) today k hq hw ht hf hm]
    dsimp only
    rw [hk]
  have hsc2 : (if s.asked_questions = [] ∧ s.total_answered = 0 then
      { s with score := 0, total_answered := 0 } else s).score =
      (if s.asked_questions = [] ∧ s.total_answered = 0 then 0 else s.score) := by
    by_cases hc : s.asked_questions = [] ∧ s.total_answered = 0
    · rw [if_pos hc, if_pos hc]
    · rw [if_neg hc, if_neg hc]
  have htot2 : (if s.asked_questions = [] ∧ s.total_answered = 0 then
      { s with score := 0, total_answered := 0 } else s).total_answered =
      (if s.asked_questions = [] ∧ s.total_answered = 0 then 0 else s.total_answered) := by
    by_cases hc : s.asked_questions = [] ∧ s.total_answered = 0
    · rw [if_pos hc, if_pos hc]
    · rw [if_neg hc, if_neg hc]
  rw [handle, eq_quiz_start s db (stripStr msg) (lowerStr (stripStr msg)) today r hq hw ht hf hm]
  dsimp only
  cases hpick : pick_unused_question (if s.asked_questions = [] ∧ s.total_answered = 0 then
      { s with score := 0, total_answered := 0 } else s) r with
  | none =>
    have hempty : unusedQuestions s.asked_questions = [] := by
      have h0 := pick_unused_eq_none.mp hpick
      rw [hask] at h0
      exact h0
    refine ⟨hsc2, htot2, rfl, ?_, ?_, hD⟩
    · intro hall
      refine ⟨?_, rfl⟩
      show (if s.asked_questions = [] ∧ s.total_answered = 0 then
        { s with score := 0, total_answered := 0 } else s).current_question = none
      split <;> exact hq
    · intro hne
      exact absurd hempty hne
  | some qa =>
    obtain ⟨hbank, hnotin⟩ := pick_unused_eq_some hpick
    rw [hask] at hnotin
    refine ⟨hsc2, htot2, rfl, ?_, ?_, hD⟩
    · intro hall
      exact absurd (hall qa hbank) hnotin
    · intro hne
      exact ⟨qa, rfl, hbank, hnotin⟩

/-- Witness for C6: a fresh quiz start installs an unused question (here the
draw 7 picks the H2O question), and an exhausted bank yields the exhaustion
message. -/
theorem handle_quiz_start_spec_witness :
    (handle initSession emptyDB "start quiz" "2026-10-12" 7).session.score = 0 ∧
    (∃ qa : QA, (handle initSession emptyDB "start quiz" "2026-10-12" 7).session.current_question =
      some qa ∧ qa ∈ quiz_questions ∧ qa.q ∉ initSession.asked_questions) ∧
    (handle { initSession with asked_questions := quiz_questions.map QA.q }
      emptyDB "start quiz" "2026-10-12" 0).resp =
      "All questions already used. Type <em>reset quiz</em> to start over." := by
  have h1 := handle_quiz_start_spec initSession emptyDB "start quiz" "2026-10-12" 7
    rfl rfl rfl rfl (by decide)
  have h2 := handle_quiz_start_spec { initSession with asked_questions := quiz_questions.map QA.q }
    emptyDB "start quiz" "2026-10-12" 0 rfl rfl rfl rfl (by decide)
  refine ⟨?_, ?_, ?_⟩
  · rw [h1.1]
    decide
  · exact h1.2.2.2.2.1 (by decide)
  · exact (h2.2.2.2.1 (by decide)).2

/-- Per-step behaviour of the asked list: a dispatcher step either extends
`asked_questions` (by nothing or by the answered question) or clears it via
a quiz-reset phrase. -/
theorem asked_step_core (s : Session) (db : DB) (um lo t : String) (r : Nat) :
    (∃ tail, (handleCore s db um lo t r).session.asked_questions = s.asked_questions ++ tail) ∨
    ((handleCore s db um lo t r).session.asked_questions = [] ∧
      lo ∈ (["reset quiz", "restart quiz"] : List String)) := by
  cases hq : s.current_question with
  | some qobj =>
    left
    exact ⟨[qobj.q], by rw [eq_answer s db um lo t r qobj hq]⟩
  | none =>
    cases hw : s.waiting_for_quiz_yes_no with
    | true =>
      by_cases hy : lo ∈ (["yes", "y"] : List String)
      · rw [eq_continue_yes s db um lo t r hq hw hy]
        cases hpick : pick_unused_question s r with
        | none =>
          left
          exact ⟨[], by simp⟩
        | some qa =>
          left
          exact ⟨[], by simp⟩
      · by_cases hn : lo ∈ (["no", "n"] : List String)
        · rw [eq_continue_no s db um lo t r hq hw hy hn]
          left
          exact ⟨[], by simp⟩
        · rw [eq_continue_other s db um lo t r hq hw hy hn]
          left
          exact ⟨[], by simp⟩
    | false =>
      cases ht : s.is_taking_attendance with
      | true =>
        rw [eq_attendance s db um lo t r hq hw ht]
        left
        exact ⟨[], by simp⟩
      | false =>
        cases hf : s.awaiting_feedback with
        | true =>
          rw [eq_feedback_capture s db um lo t r hq hw ht hf]
          left
          exact ⟨[], by simp⟩
        | false =>
          by_cases hm1 : lo ∈ (["mark my attendance", "mark attendance", "take attendance"] : List String)
          · rw [eq_attendance_start s db um lo t r hq hw ht hf hm1]
            left
            refine ⟨[], ?_⟩
            split <;> simp
          · by_cases hm2 : lo ∈ (["start quiz", "quiz", "ask question", "start a quiz"] : List String)
            · rw [eq_quiz_start s db um lo t r hq hw ht hf hm2]
              dsimp only
              have hask : (if s.asked_questions = [] ∧ s.total_answered = 0 then
                  { s with score := 0, total_answered := 0 } else s).asked_questions =
                  s.asked_questions := by
                split <;> rfl
              left
              refine ⟨[], ?_⟩
              cases hpick : pick_unused_question (if s.asked_questions = [] ∧ s.total_answered = 0
                  then { s with score := 0, total_answered := 0 } else s) r with
              | none =>
                rw [List.append_nil]
                exact hask
              | some qa =>
                rw [List.append_nil]
                exact hask
            · by_cases hm3 : lo ∈ (["reset quiz", "restart quiz"] : List String)
              · right
                rw [eq_reset s db um lo t r hq hw ht hf hm3]
                exact ⟨rfl, hm3⟩
              · by_cases hm4 : lo ∈ (["show attendance stats", "attendance stats", "stats"] : List String)
                · rw [eq_stats s db um lo t r hq hw ht hf hm4]
                  dsimp only
                  left
                  refine ⟨[], ?_⟩
                  split <;> simp
                · by_cases hm5 : lo ∈ (["give feedback", "feedback"] : List String)
                  · rw [eq_feedback_start s db um lo t r hq hw ht hf hm5]
                    left
                    exact ⟨[], by simp⟩
                  · by_cases hsw : startsWithStr lo "add students" = true
                    · rw [eq_add_students s db um lo t r hq hw ht hf hsw]
                      dsimp only
                      left
                      refine ⟨[], ?_⟩
                      split <;> simp
                    · have hswf : startsWithStr lo "add students" = false := by
                        simpa using hsw
                      by_cases hm6 : lo ∈ (["random student", "pick a student", "choose a student"] : List String)
                      · rw [eq_random_student s db um lo t r hq hw ht hf hm6]
                        left
                        refine ⟨[], ?_⟩
                        split <;> simp
                      · by_cases hm7 : lo ∈ (["help", "commands"] : List String)
                        · obtain ⟨hs, -⟩ := eq_help s db um lo t r hq hw ht hf hm7
                          rw [hs]
                          left
                          exact ⟨[], by simp⟩
                        · rw [eq_fallback s db um lo t r hq hw ht hf hm1 hm2 hm3 hm4 hm5 hswf hm6 hm7]
                          left
                          exact ⟨[], by simp⟩

/-- C7: in every reachable session state, `asked_questions` has at most the
bank's 9 entries, any installed question is a bank question not yet asked,
and a dispatcher step either only grows the asked list or clears it via a
quiz-reset phrase. -/
theorem asked_questions_monotone_bounded (s : Session) (h : ReachableSession s) :
    s.asked_questions.length ≤ 9 ∧
    (∀ qa : QA, s.current_question = some qa →
      qa ∈ quiz_questions ∧ qa.q ∉ s.asked_questions) ∧
    (∀ (db : DB) (msg today : String) (r : Nat),
      (∃ tail, (handle s db msg today r).session.asked_questions =
        s.asked_questions ++ tail) ∨
      ((handle s db msg today r).session.asked_questions = [] ∧
        lowerStr (stripStr msg) ∈ (["reset quiz", "restart quiz"] : List String))) := by
  obtain ⟨-, h2, h3, h4, -, -⟩ := inv_reachable h
  exact ⟨asked_le_nine h3 h4, h2,
    fun db msg today r => asked_step_core s db (stripStr msg) (lowerStr (stripStr msg)) today r⟩

/-- Witness for C7 at the reachable one-question state, stepped with a
"reset quiz" message (which the armed yes/no gate intercepts, so the asked
list still only grows). -/
theorem asked_questions_monotone_bounded_witness :
    (runMsgs (initSession, emptyDB)
      [("start quiz", "2026-10-12", 0), ("mitochondria", "2026-10-12", 0)]).1.asked_questions.length ≤ 9 ∧
    ((∃ tail, (handle (runMsgs (initSession, emptyDB)
        [("start quiz", "2026-10-12", 0), ("mitochondria", "2026-10-12", 0)]).1 emptyDB
        "reset quiz" "2026-10-12" 0).session.asked_questions =
        (runMsgs (initSession, emptyDB)
        [("start quiz", "2026-10-12", 0), ("mitochondria", "2026-10-12", 0)]).1.asked_questions ++ tail) ∨
     ((handle (runMsgs (initSession, emptyDB)
        [("start quiz", "2026-10-12", 0), ("mitochondria", "2026-10-12", 0)]).1 emptyDB
        "reset quiz" "2026-10-12" 0).session.asked_questions = [] ∧
      lowerStr (stripStr "reset quiz") ∈ (["reset quiz", "restart quiz"] : List String))) := by
  have h := asked_questions_monotone_bounded _
    ⟨emptyDB, [("start quiz", "2026-10-12", 0), ("mitochondria", "2026-10-12", 0)], rfl⟩
  exact ⟨h.1, h.2.2 emptyDB "reset quiz" "2026-10-12" 0⟩

/-- C8: an `add students` command inserts the parsed names with the UNIQUE
constraint swallowed, so each requested name appears exactly once in the
roster, and repeating the identical command changes nothing. -/
theorem add_students_idempotent (s : Session) (db : DB) (msg today : String) (r : Nat)
    (hq : s.current_question = none) (hw : s.waiting_for_quiz_yes_no = false)
    (ht : s.is_taking_attendance = false) (hf : s.awaiting_feedback = false)
    (hsw : startsWithStr (lowerStr (stripStr msg)) "add students" = true)
    (hnodup : db.students.Nodup)
    (hne : ((splitComma (stripStr (dropStr (stripStr msg) 12))).map stripStr).filter
      (fun n => decide (n ≠ "")) ≠ []) :
    (handle s db msg today r).session = s ∧
    (handle s db msg today r).db =
      (((splitComma (stripStr (dropStr (stripStr msg) 12))).map stripStr).filter
        (fun n => decide (n ≠ ""))).foldl add_student db ∧
    (∀ n ∈ ((splitComma (stripStr (dropStr (stripStr msg) 12))).map stripStr).filter
        (fun n => decide (n ≠ "")),
      (handle s db msg today r).db.students.count n = 1) ∧
    (handle s (handle s db msg today r).db msg today r).db.students =
      (handle s db msg today r).db.students := by
  rw [handle, eq_add_students s db (stripStr msg) (lowerStr (stripStr msg)) today r hq hw ht hf hsw]
  dsimp only
  rw [if_neg hne]
  refine ⟨rfl, rfl, ?_, ?_⟩
  · intro n hn
    exact List.count_eq_one_of_mem (foldl_add_student_nodup _ db hnodup)
      (foldl_add_student_mem _ db n hn)
  · rw [handle, eq_add_students s _ (stripStr msg) (lowerStr (stripStr msg)) today r hq hw ht hf hsw]
    dsimp only
    rw [if_neg hne]
    dsimp only
    rw [foldl_add_student_fixed _ _ (fun n hn => foldl_add_student_mem _ db n hn)]

/-- Witness for C8: "add students Alice, Bob" issued twice against an empty
roster yields each name exactly once. -/
theorem add_students_idempotent_witness :
    (handle initSession emptyDB "add students Alice, Bob" "2026-10-12" 0).db.students =
      ["Alice", "Bob"] ∧
    (handle initSession emptyDB "add students Alice, Bob" "2026-10-12" 0).db.students.count
      "Alice" = 1 ∧
    (handle initSession emptyDB "add students Alice, Bob" "2026-10-12" 0).db.students.count
      "Bob" = 1 ∧
    (handle initSession (handle initSession emptyDB "add students Alice, Bob" "2026-10-12" 0).db
      "add students Alice, Bob" "2026-10-12" 0).db.students =
      (handle initSession emptyDB "add students Alice, Bob" "2026-10-12" 0).db.students := by
  have h := add_students_idempotent initSession emptyDB "add students Alice, Bob" "2026-10-12" 0
    rfl rfl rfl rfl (by decide) List.nodup_nil (by decide)
  obtain ⟨-, hdb, hcount, hidem⟩ := h
  refine ⟨?_, ?_, ?_, hidem⟩
  · rw [hdb]
    decide
  · exact hcount "Alice" (by decide)
  · exact hcount "Bob" (by decide)

/-- C9: with no capture/quiz mode active, a message matching no command
phrase and no earlier branch (the empty message included) is persisted
verbatim (as the stripped `user_message`) as a feedback entry and
acknowledged with the thank-you response; the session is untouched. -/
theorem handle_fallback_feedback (s : Session) (db : DB) (msg today : String) (r : Nat)
    (hq : s.current_question = none) (hw : s.waiting_for_quiz_yes_no = false)
    (ht : s.is_taking_attendance = false) (hf : s.awaiting_feedback = false)
    (hcmd : matchesCommand (lowerStr (stripStr msg)) = false) :
    (handle s db msg today r).session = s ∧
    (handle s db msg today r).db = add_feedback db (stripStr msg) ∧
    (handle s db msg today r).db.feedback = db.feedback ++ [stripStr msg] ∧
    (handle s db msg today r).resp =
      "‚úÖ Thank you for your feedback! It has been saved." := by
  simp only [matchesCommand, Bool.or_eq_false_iff, decide_eq_false_iff_not, command_phrases,
    List.mem_cons, List.not_mem_nil, or_false, not_or] at hcmd
  obtain ⟨⟨n1, n2, n3, n4, n5, n6, n7, n8, n9, n10, n11, n12, n13, n14, n15, n16, n17,
    n18, n19⟩, hsw⟩ := hcmd
  have hm1 : lowerStr (stripStr msg) ∉
      (["mark my attendance", "mark attendance", "take attendance"] : List String) := by
    simp only [List.mem_cons, List.not_mem_nil, or_false, not_or]
    exact ⟨n1, n2, n3⟩
  have hm2 : lowerStr (stripStr msg) ∉
      (["start quiz", "quiz", "ask question", "start a quiz"] : List String) := by
    simp only [List.mem_cons, List.not_mem_nil, or_false, not_or]
    exact ⟨n4, n5, n6, n7⟩
  have hm3 : lowerStr (stripStr msg) ∉ (["reset quiz", "restart quiz"] : List String) := by
    simp only [List.mem_cons, List.not_mem_nil, or_false, not_or]
    exact ⟨n8, n9⟩
  have hm4 : lowerStr (stripStr msg) ∉
      (["show attendance stats", "attendance stats", "stats"] : List String) := by
    simp only [List.mem_cons, List.not_mem_nil, or_false, not_or]
    exact ⟨n10, n11, n12⟩
  have hm5 : lowerStr (stripStr msg) ∉ (["give feedback", "feedback"] : List String) := by
    simp only [List.mem_cons, List.not_mem_nil, or_false, not_or]
    exact ⟨n13, n14⟩
  have hm6 : lowerStr (stripStr msg) ∉
      (["random student", "pick a student", "choose a student"] : List String) := by
    simp only [List.mem_cons, List.not_mem_nil, or_false, not_or]
    exact ⟨n15, n16, n17⟩
  have hm7 : lowerStr (stripStr msg) ∉ (["help", "commands"] : List String) := by
    simp only [List.mem_cons, List.not_mem_nil, or_false, not_or]
    exact ⟨n18, n19⟩
  rw [handle, eq_fallback s db (stripStr msg) (lowerStr (stripStr msg)) today r
    hq hw ht hf hm1 hm2 hm3 hm4 hm5 hsw hm6 hm7]
  exact ⟨rfl, rfl, rfl, rfl⟩

/-- Witness for C9: "banana smoothie" and the empty message both land in the
feedback table, untouched session. -/
theorem handle_fallback_feedback_witness :
    (handle initSession emptyDB "banana smoothie" "2026-10-12" 0).db.feedback =
      ["banana smoothie"] ∧
    (handle initSession emptyDB "banana smoothie" "2026-10-12" 0).session = initSession ∧
    (handle initSession emptyDB "" "2026-10-12" 0).db.feedback = [""] := by
  have h1 := handle_fallback_feedback initSession emptyDB "banana smoothie" "2026-10-12" 0
    rfl rfl rfl rfl (by decide)
  have h2 := handle_fallback_feedback initSession emptyDB "" "2026-10-12" 0
    rfl rfl rfl rfl (by decide)
  refine ⟨?_, h1.1, ?_⟩
  · rw [h1.2.2.1]
    decide
  · rw [h2.2.2.1]
    decide
